import Mathlib

/-!
A shallow embedding, in Lean 4, of the state models and pure algorithms of the
rgbw-ctrl firmware (sources under `src/main/include`), together with theorems
checking the natural-language specification against that code.

Modelling conventions:
* C++ `unsigned long` / `uint32_t` arithmetic is carried out on `ℕ` with
  explicit reduction `% 2 ^ 32` where the machine type can wrap; `uint8_t`
  casts of in-range values are kept as plain naturals.
* IEEE `float` computations are modelled by exact rational arithmetic on `ℚ`;
  float-to-integer casts of non-negative values become truncation toward zero
  (`qtrunc`/`truncQ` below).  The transcendental library calls (`log`, `pow`
  with fractional exponent) that appear inside `kelvinToRgb` and
  `perceptualBrightnessStep` are abstracted as explicit function parameters,
  so the theorems about the surrounding control flow hold for every possible
  behaviour of those calls.
* JSON command payloads are modelled as records of `Option` fields: a field is
  `some v` exactly when it is present in the payload with the expected type.
-/

/-! ## Machine-arithmetic helpers -/

/-- Truncation of a rational toward zero, the rounding used by C float→integer
casts (`static_cast<int>`, `static_cast<uint8_t>` of in-range values). -/
def qtrunc (x : ℚ) : ℤ := if 0 ≤ x then ⌊x⌋ else ⌈x⌉

/-- Cast of a (non-negative) float value to an unsigned integer type. -/
def truncQ (x : ℚ) : ℕ := (qtrunc x).toNat

/-- `std::clamp` on rationals: `lo` if `x < lo`, `hi` if `hi < x`, else `x`. -/
def clampQ (x lo hi : ℚ) : ℚ := if x < lo then lo else if hi < x then hi else x

/-- `std::clamp` on naturals (used with `uint8_t` arguments). -/
def clampNat (v lo hi : ℕ) : ℕ := if v < lo then lo else if hi < v then hi else v

/-- C `fmod(x, y) = x - trunc(x / y) * y`. -/
def fmodQ (x y : ℚ) : ℚ := x - y * (qtrunc (x / y) : ℚ)

/-- Subtraction of 32-bit unsigned values (`now - lastSendTime` on the ESP32,
where `unsigned long` is 32 bits wide): the difference modulo `2 ^ 32`. -/
def ulongSub (a b : ℕ) : ℕ := (a + (2 ^ 32 - b % 2 ^ 32)) % 2 ^ 32

/-! ## `ThrottledValue<T>` (src/main/include/throttled_value.hh)

The mutex in the C++ class only guards against concurrent evaluation (its
`try_lock` failure path returns `false`); the sequential semantics embedded
here is the behaviour of a call that acquires the lock. -/

structure ThrottledValue (T : Type) where
  lastValue : T
  lastSendTime : ℕ
  throttleInterval : ℕ

/-- `ThrottledValue::shouldSend`: refuse when the throttle interval has not
elapsed since the last accepted send or the value is unchanged. -/
def ThrottledValue.shouldSend {T : Type} [DecidableEq T]
    (tv : ThrottledValue T) (now : ℕ) (newValue : T) : Bool :=
  if ulongSub now tv.lastSendTime < tv.throttleInterval ∨ newValue = tv.lastValue then
    false
  else
    true

/-- `ThrottledValue::setLastSent`: record the accepted value and send time. -/
def ThrottledValue.setLastSent {T : Type}
    (tv : ThrottledValue T) (time : ℕ) (value : T) : ThrottledValue T :=
  { tv with lastValue := value, lastSendTime := time }

/-! ## `Light` (src/main/include/light.hh) -/

/-- `Light::State`: one output channel, an on/off flag plus an 8-bit value. -/
structure LightState where
  isOn : Bool
  value : ℕ
deriving DecidableEq, Repr

/-- `Light::perceptualBrightnessStep`.  The gamma-space computation
`lround(pow(clamp(pow(v/255, 1/2.2) ± 0.05, 0, 1), 2.2) * 255)` is pure float
math abstracted as the parameter `core` (already including the `lround`); the
`static_cast<uint8_t>` is `% 256` and the final `std::clamp` keeps the result
in `[MIN_BRIGHTNESS, MAX_BRIGHTNESS] = [1, 255]`. -/
def perceptualBrightnessStep (core : ℕ → Bool → ℕ) (currentValue : ℕ) (increase : Bool) : ℕ :=
  clampNat (core currentValue increase % 256) 1 255

/-- `Light::toggle`: flip the on flag; if now on with value 0 (`OFF_VALUE`),
set the value to 255 (`MAX_BRIGHTNESS`). -/
def Light.toggle (s : LightState) : LightState :=
  let s1 : LightState := { s with isOn := !s.isOn }
  if s1.isOn && s1.value == 0 then { s1 with value := 255 } else s1

/-- `Light::decreaseBrightness`: a no-op when off (`isOff()`) or already at
`MIN_BRIGHTNESS = 1`; otherwise step the value down perceptually. -/
def Light.decreaseBrightness (core : ℕ → Bool → ℕ) (s : LightState) : LightState :=
  if !s.isOn || s.value == 1 then s
  else { s with value := perceptualBrightnessStep core s.value false }

/-! ## Alexa device identity codec (src/main/include/async_esp_alexa_device.hh) -/

/-- `AsyncEspAlexaDevice::encodeLightKey`: `mac24 << 7 | idx` in `uint32_t`
arithmetic.  `mac24` is the lower 24 bits of the station MAC address, computed
once by `getMac24` and threaded here as a parameter. -/
def encodeLightKey (mac24 : ℕ) (idx : ℕ) : ℕ := (mac24 <<< 7 ||| idx) % 2 ^ 32

/-- `AsyncEspAlexaDevice::decodeLightKey`: recover the device index, or the
sentinel `INVALID_DEVICE_INDEX = 255` when the upper bits do not match the
current hardware id. -/
def decodeLightKey (mac24 : ℕ) (key : ℕ) : ℕ :=
  if key >>> 7 = mac24 then key &&& 127 else 255

/-! ## Output manager BLE write path (src/main/include/output_manager.hh) -/

/-- `Output::State`: the four channel states, indexed Red, Green, Blue, White
(in the declaration order of the `Color` enum; `color.hh` itself is not in the
tree, but `output_manager.hh` asserts `Color::White < 4` and the spec fixes
the order Red, Green, Blue, White). -/
structure OutputState where
  values : Fin 4 → LightState

/-- `Output::Manager::setState`: copy each received channel state over the
corresponding light (the hardware duty-cycle write inside `Light::setState`
is outside this model). -/
structure OutputManagerState where
  lights : Fin 4 → LightState
  colorNotificationThrottle : ThrottledValue OutputState

def Manager.setState (m : OutputManagerState) (s : OutputState) : OutputManagerState :=
  { m with lights := s.values }

/-- `Output::Manager::OutputColorCallback::onWrite`: reject any payload whose
length differs from `sizeof(Output::State) = 8`; otherwise `memcpy` the bytes
into the state (byte layout: on-flag byte then value byte, four times; a
non-zero on-flag byte reads as `true`), apply it via `setState`, and record it
in the notification throttle via `setLastSent(millis(), state)` (`now` below
is that timestamp). -/
def outputColorOnWrite (now : ℕ) (payload : List ℕ) (m : OutputManagerState) :
    OutputManagerState :=
  if payload.length ≠ 8 then m
  else
    let st : OutputState :=
      ⟨![⟨payload.getD 0 0 != 0, payload.getD 1 0⟩,
         ⟨payload.getD 2 0 != 0, payload.getD 3 0⟩,
         ⟨payload.getD 4 0 != 0, payload.getD 5 0⟩,
         ⟨payload.getD 6 0 != 0, payload.getD 7 0⟩]⟩
    let m1 := Manager.setState m st
    { m1 with colorNotificationThrottle := m1.colorNotificationThrottle.setLastSent now st }

/-! ## `EspNow::Device` (src/main/include/esp_now_handler_controller.hh) -/

/-- `EspNow::Device`: a 24-byte name buffer plus a 6-byte MAC address.  The
fixed array lengths are not tracked in the type; the comparison operators
below compare elementwise exactly as `std::array::operator==` does. -/
structure EspNowDevice where
  name : List ℕ
  address : List ℕ
deriving DecidableEq, Repr

/-- `EspNow::Device::operator==`: both the names and the addresses agree. -/
def espNowDeviceEq (d1 d2 : EspNowDevice) : Bool :=
  d1.name == d2.name && d1.address == d2.address

/-- `EspNow::Device::operator!=` as written in the source: note the `&&`
(both the names and the addresses must differ), not the De Morgan dual of
`operator==`. -/
def espNowDeviceNe (d1 d2 : EspNowDevice) : Bool :=
  d1.name != d2.name && d1.address != d2.address

/-! ## `AsyncEspAlexaColorUtils` (src/main/include/async_esp_alexa_color_utils.hh)

Floats become exact rationals; the constants below are the exact values of the
decimal literals in the source. -/

def ALEXA_MIN_BRI_VAL : ℕ := 1
def ALEXA_MAX_BRI_VAL : ℕ := 254
def ALEXA_MIN_SAT_VAL : ℕ := 0
def ALEXA_MAX_SAT_VAL : ℕ := 254
def RGB_MIN_VAL : ℕ := 0
def RGB_MAX_VAL : ℕ := 255
def HUE_MIN_VAL : ℕ := 0
def HUE_MAX_VAL : ℕ := 65535
def KELVIN_MIN : ℚ := 2000
def KELVIN_MAX : ℚ := 6500
def CT_GREEN_A : ℚ := 99470802 / 1000000
def CT_GREEN_B : ℚ := -161119568 / 1000000
def CT_BLUE_A : ℚ := 138517731 / 1000000
def CT_BLUE_B : ℚ := -305044793 / 1000000
def CT_RED_A : ℚ := 329698727 / 1000000
def CT_RED_EXP : ℚ := -13320476 / 100000000
def CT_GREEN2_A : ℚ := 28812217 / 100000
def CT_GREEN2_EXP : ℚ := -7551485 / 100000000

/-- The float `max` of the three normalised channels in `rgbToHsv`
(`std::max({fr, fg, fb})`). -/
def hsvMaxQ (fr fg fb : ℚ) : ℚ := max fr (max fg fb)

/-- The float `min` of the three normalised channels in `rgbToHsv`
(`std::min({fr, fg, fb})`). -/
def hsvMinQ (fr fg fb : ℚ) : ℚ := min fr (min fg fb)

/-- `delta = max - min` in `rgbToHsv`. -/
def hsvDeltaQ (fr fg fb : ℚ) : ℚ := hsvMaxQ fr fg fb - hsvMinQ fr fg fb

/-- The float hue computed by `rgbToHsv` before the final negative-wrap fix:
the sector formula when `delta > 0`, and 0 otherwise. -/
def hueRawQ (fr fg fb : ℚ) : ℚ :=
  if 0 < hsvDeltaQ fr fg fb then
    if hsvMaxQ fr fg fb = fr then 60 * fmodQ ((fg - fb) / hsvDeltaQ fr fg fb) 6
    else if hsvMaxQ fr fg fb = fg then 60 * ((fb - fr) / hsvDeltaQ fr fg fb + 2)
    else 60 * ((fr - fg) / hsvDeltaQ fr fg fb + 4)
  else 0

/-- The float hue `h` of `rgbToHsv` (degrees): `+360` when negative. -/
def hueFloatQ (fr fg fb : ℚ) : ℚ :=
  if hueRawQ fr fg fb < 0 then hueRawQ fr fg fb + 360 else hueRawQ fr fg fb

/-- The float saturation `s` computed by `rgbToHsv`:
`max == 0 ? 0 : delta / max`. -/
def satFloatQ (fr fg fb : ℚ) : ℚ :=
  if hsvMaxQ fr fg fb = 0 then 0 else hsvDeltaQ fr fg fb / hsvMaxQ fr fg fb

/-- `AsyncEspAlexaColorUtils::rgbToHsv`: normalise by
`RGB_MAX_VAL - RGB_MIN_VAL = 255`, compute float h/s/v, then cast
`h / 360 * 65535` to `uint16_t`, `s * ALEXA_MAX_SAT_VAL` to `uint8_t`, and
take `max(uint8_t(v * ALEXA_MAX_BRI_VAL), ALEXA_MIN_BRI_VAL)`. -/
def rgbToHsv (r g b : ℕ) : ℕ × ℕ × ℕ :=
  (truncQ (hueFloatQ ((r : ℚ) / 255) ((g : ℚ) / 255) ((b : ℚ) / 255) / 360 * 65535),
   truncQ (satFloatQ ((r : ℚ) / 255) ((g : ℚ) / 255) ((b : ℚ) / 255) * 254),
   max (truncQ (hsvMaxQ ((r : ℚ) / 255) ((g : ℚ) / 255) ((b : ℚ) / 255) * 254)) 1)

/-- `AsyncEspAlexaColorUtils::hsToRgb`: six 60°-hue sectors selected by
`static_cast<int>(h * 6) % 6`; the `default` branch of the `switch` yields
`(0, 0, 0)`. -/
def hsToRgb (hue sat : ℕ) : ℕ × ℕ × ℕ :=
  let h : ℚ := (hue : ℚ) / ((HUE_MAX_VAL : ℚ) - (HUE_MIN_VAL : ℚ))
  let s : ℚ := (sat : ℚ) / ((ALEXA_MAX_SAT_VAL : ℚ) - (ALEXA_MIN_SAT_VAL : ℚ))
  let i : ℤ := qtrunc (h * 6)
  let f : ℚ := h * 6 - (i : ℚ)
  let p : ℚ := 255 * (1 - s)
  let q : ℚ := 255 * (1 - f * s)
  let t : ℚ := 255 * (1 - (1 - f) * s)
  let j : ℤ := i % 6
  if j = 0 then (255, truncQ t, truncQ p)
  else if j = 1 then (truncQ q, 255, truncQ p)
  else if j = 2 then (truncQ p, 255, truncQ t)
  else if j = 3 then (truncQ p, truncQ q, 255)
  else if j = 4 then (truncQ t, truncQ p, 255)
  else if j = 5 then (255, truncQ p, truncQ q)
  else (0, 0, 0)

/-- `AsyncEspAlexaColorUtils::hsvToRgb`: scale the hue/saturation sector
colour by `value / (ALEXA_MAX_BRI_VAL - ALEXA_MIN_BRI_VAL) = value / 253`,
clamping each channel into `[0, 255]` before the `uint8_t` cast. -/
def hsvToRgb (hue sat val : ℕ) : ℕ × ℕ × ℕ :=
  let rgb := hsToRgb hue sat
  let factor : ℚ := (val : ℚ) / ((ALEXA_MAX_BRI_VAL : ℚ) - (ALEXA_MIN_BRI_VAL : ℚ))
  (truncQ (clampQ ((rgb.1 : ℚ) * factor) 0 255),
   truncQ (clampQ ((rgb.2.1 : ℚ) * factor) 0 255),
   truncQ (clampQ ((rgb.2.2 : ℚ) * factor) 0 255))

/-- `AsyncEspAlexaColorUtils::hsvToRgbw`: convert to RGB, extract
`w = std::min({r, g, b})` and subtract it from each channel. -/
def hsvToRgbw (hue sat val : ℕ) : ℕ × ℕ × ℕ × ℕ :=
  let rgb := hsvToRgb hue sat val
  let w := min rgb.1 (min rgb.2.1 rgb.2.2)
  (rgb.1 - w, rgb.2.1 - w, rgb.2.2 - w, w)

/-- `AsyncEspAlexaColorUtils::kelvinToRgb`: clamp the input to
`[KELVIN_MIN, KELVIN_MAX] = [2000, 6500]`, then the two-branch Tanner Helland
approximation selected at 6600.  The float library calls are abstracted:
`logQ` models `log`, and `powQ x e` models `pow(x, e)`. -/
def kelvinToRgb (logQ : ℚ → ℚ) (powQ : ℚ → ℚ → ℚ) (kelvin : ℚ) : ℚ × ℚ × ℚ :=
  let k := clampQ kelvin KELVIN_MIN KELVIN_MAX
  if k ≤ 6600 then
    ((RGB_MAX_VAL : ℚ),
     clampQ (CT_GREEN_A * logQ (k / 100) + CT_GREEN_B) (RGB_MIN_VAL : ℚ) (RGB_MAX_VAL : ℚ),
     if k ≤ 1900 then (RGB_MIN_VAL : ℚ)
     else clampQ (CT_BLUE_A * logQ ((k - 1000) / 100) + CT_BLUE_B)
       (RGB_MIN_VAL : ℚ) (RGB_MAX_VAL : ℚ))
  else
    (clampQ (CT_RED_A * powQ ((k - 6000) / 100) CT_RED_EXP)
       (RGB_MIN_VAL : ℚ) (RGB_MAX_VAL : ℚ),
     clampQ (CT_GREEN2_A * powQ ((k - 6000) / 100) CT_GREEN2_EXP)
       (RGB_MIN_VAL : ℚ) (RGB_MAX_VAL : ℚ),
     (RGB_MAX_VAL : ℚ))

/-! ## Alexa virtual devices (src/main/include/async_esp_alexa_device.hh,
src/main/include/alexa_integration.hh) -/

inductive AlexaDeviceKind where
  | onOff
  | dimmable
  | whiteSpectrum
  | color
  | extendedColor
deriving DecidableEq, Repr

/-- A device as created by `AlexaIntegration`: its variant and display name
(the registry also wires in the initial state and the command callbacks,
which are irrelevant to which devices exist). -/
structure CreatedAlexaDevice where
  kind : AlexaDeviceKind
  name : String
deriving DecidableEq, Repr

/-- `AlexaIntegration::createSingleChannelDevice`: returns `nullptr` when the
configured name is empty (`name[0] == '\0'`), otherwise a new
`AsyncEspAlexaDimmableDevice` with that name. -/
def createSingleChannelDevice (name : String) : Option CreatedAlexaDevice :=
  if name = "" then none
  else some ⟨AlexaDeviceKind.dimmable, name⟩

/-- `AlexaIntegration::setupRgbDevice`: in `RGB_DEVICE` mode, returns early
when `deviceNames[0]` is empty, otherwise creates an
`AsyncEspAlexaColorDevice` named `deviceNames[0]`. -/
def setupRgbDevice (names : Fin 4 → String) : Option CreatedAlexaDevice :=
  if names 0 = "" then none
  else some ⟨AlexaDeviceKind.color, names 0⟩

/-- `AlexaIntegration::setupStandaloneDevice`: a single-channel (dimmable)
device on the White slot, `deviceNames[3]`. -/
def setupStandaloneDevice (names : Fin 4 → String) : Option CreatedAlexaDevice :=
  createSingleChannelDevice (names 3)

/-- `AlexaIntegration::setupDevices` in `RGB_DEVICE` mode: `setupRgbDevice`
then `setupStandaloneDevice`, each adding its device if it was created. -/
def setupRgbModeDevices (names : Fin 4 → String) : List CreatedAlexaDevice :=
  (setupRgbDevice names).toList ++ (setupStandaloneDevice names).toList

/-- The fields of an Alexa `PUT .../state` JSON body that the dimmable device
decode path inspects: `some v` exactly when the key is present with the
expected JSON type (`obj["on"].is<bool>()`, `obj["bri"].is<JsonInteger>()`). -/
structure AlexaStatePayload where
  isOn : Option Bool
  bri : Option ℕ

/-- The state of an `AsyncEspAlexaDimmableDevice` relevant to command decode:
the inherited on flag plus the brightness. -/
structure DimmableDeviceState where
  isOn : Bool
  brightness : ℕ
deriving DecidableEq, Repr

/-- `AsyncEspAlexaDevice::handleStateUpdate`: apply `obj["on"]` when present
as a bool. -/
def deviceHandleStateUpdate (p : AlexaStatePayload) (s : DimmableDeviceState) :
    DimmableDeviceState :=
  match p.isOn with
  | some b => { s with isOn := b }
  | none => s

/-- `AsyncEspAlexaDimmableDevice::handleStateUpdate`: the base update, then
`setBrightness(obj["bri"])` when `bri` is present (the `uint8_t` conversion is
`% 256`), else `setBrightness(254)` when `isOn()` holds afterwards. -/
def dimmableHandleStateUpdate (p : AlexaStatePayload) (s : DimmableDeviceState) :
    DimmableDeviceState :=
  let s1 := deviceHandleStateUpdate p s
  match p.bri with
  | some b => { s1 with brightness := b % 256 }
  | none => if s1.isOn then { s1 with brightness := 254 } else s1

/-- `std::min({r, g, b})` over a channel triple, the white-channel extraction
used by `hsvToRgbw` (and `ctToRgbw`). -/
def minChannel (rgb : ℕ × ℕ × ℕ) : ℕ := min rgb.1 (min rgb.2.1 rgb.2.2)

/-- A concrete output-manager state (all channels off, empty throttle with the
500 ms interval used by `colorNotificationThrottle`). -/
def sampleManager : OutputManagerState :=
  { lights := fun _ => ⟨false, 0⟩,
    colorNotificationThrottle := ⟨⟨fun _ => ⟨false, 0⟩⟩, 0, 500⟩ }

/-! ## Helper lemmas -/

theorem qtrunc_eq_zero {x : ℚ} (h1 : -1 < x) (h2 : x < 1) : qtrunc x = 0 := by
  unfold qtrunc
  split_ifs with h
  · exact Int.floor_eq_zero_iff.mpr ⟨h, h2⟩
  · exact Int.ceil_eq_zero_iff.mpr ⟨h1, le_of_lt (not_le.mp h)⟩

theorem truncQ_le_of_le {x : ℚ} {n : ℕ} (h : x ≤ (n : ℚ)) : truncQ x ≤ n := by
  unfold truncQ qtrunc
  split_ifs with h0
  · rw [Int.toNat_le]
    calc ⌊x⌋ ≤ ⌊(n : ℚ)⌋ := Int.floor_le_floor h
    _ = n := Int.floor_natCast n
  · rw [Int.toNat_le]
    calc ⌈x⌉ ≤ 0 := Int.ceil_le.mpr (by push_cast; linarith [not_le.mp h0])
    _ ≤ n := Int.ofNat_nonneg n

theorem truncQ_zero : truncQ 0 = 0 := by
  unfold truncQ qtrunc
  norm_num

theorem fmodQ_six_eq_self {x : ℚ} (h1 : -1 ≤ x) (h2 : x ≤ 1) : fmodQ x 6 = x := by
  unfold fmodQ
  rw [qtrunc_eq_zero (x := x / 6) (by linarith) (by linarith)]
  push_cast
  ring

theorem clampNat_one_le (v : ℕ) : 1 ≤ clampNat v 1 255 ∧ clampNat v 1 255 ≤ 255 := by
  unfold clampNat
  split_ifs <;> omega

theorem clampQ_mem {x lo hi : ℚ} (h : lo ≤ hi) :
    lo ≤ clampQ x lo hi ∧ clampQ x lo hi ≤ hi := by
  unfold clampQ
  split_ifs <;> constructor <;> linarith

theorem clampQ_of_ge {x : ℚ} (h : 6500 ≤ x) : clampQ x 2000 6500 = 6500 := by
  unfold clampQ
  split_ifs <;> linarith

theorem lor_mul_two_pow_eq_add (m idx : ℕ) (h : idx < 2 ^ 7) :
    m <<< 7 ||| idx = 2 ^ 7 * m + idx := by
  apply Nat.eq_of_testBit_eq
  intro j
  rw [Nat.testBit_lor, Nat.testBit_shiftLeft, Nat.testBit_mul_pow_two_add m h j]
  by_cases hj : j < 7
  · have hj' : ¬ (j ≥ 7) := by omega
    simp [hj, hj']
  · have h7 : j ≥ 7 := by omega
    have hidx : idx < 2 ^ j := lt_of_lt_of_le h (Nat.pow_le_pow_right (by norm_num) h7)
    simp [hj, h7, Nat.testBit_lt_two_pow hidx]

/-! ## Claim theorems -/

/-- C1: with `minInterval = 500`, `ThrottledValue::shouldSend(now, v)` is
false for every call made less than 500 ms after the last accepted send, true
for a changed value once 500 ms have elapsed, and false for a value equal to
the last accepted value regardless of elapsed time. -/
theorem throttled_shouldSend_gate {T : Type} [DecidableEq T]
    (tv : ThrottledValue T) (now : ℕ) (v : T)
    (hInterval : tv.throttleInterval = 500)
    (hle : tv.lastSendTime ≤ now) (hnow : now < 2 ^ 32) :
    (now - tv.lastSendTime < 500 → tv.shouldSend now v = false) ∧
    (500 ≤ now - tv.lastSendTime → v ≠ tv.lastValue → tv.shouldSend now v = true) ∧
    (v = tv.lastValue → tv.shouldSend now v = false) := by
  have hsub : ulongSub now tv.lastSendTime = now - tv.lastSendTime := by
    unfold ulongSub
    omega
  unfold ThrottledValue.shouldSend
  rw [hsub, hInterval]
  refine ⟨fun h => ?_, fun h1 h2 => ?_, fun h => ?_⟩
  · rw [if_pos (Or.inl h)]
  · rw [if_neg]
    push_neg
    exact ⟨by omega, h2⟩
  · rw [if_pos (Or.inr h)]

/-- Witness for C1 at a concrete gate: last send at 0 with value 0,
queried at 600 ms with the changed value 1. -/
theorem throttled_shouldSend_gate_witness :
    ThrottledValue.shouldSend (T := ℕ) ⟨0, 0, 500⟩ 600 1 = true :=
  (throttled_shouldSend_gate ⟨0, 0, 500⟩ 600 1 rfl (by decide) (by decide)).2.1
    (by decide) (by decide)

/-- C5: for every device index `idx ≤ 127`, decoding the key encoded from the
current 24-bit hardware id recovers `idx`; decoding a key encoded from a
different hardware id yields the sentinel 255. -/
theorem lightKey_codec (mac24 mac24' idx : ℕ)
    (hm : mac24 < 2 ^ 24) (hm' : mac24' < 2 ^ 24) (hidx : idx ≤ 127) :
    decodeLightKey mac24 (encodeLightKey mac24 idx) = idx ∧
    (mac24' ≠ mac24 → decodeLightKey mac24 (encodeLightKey mac24' idx) = 255) := by
  have henc : ∀ m, m < 2 ^ 24 → encodeLightKey m idx = 2 ^ 7 * m + idx := by
    intro m hmlt
    unfold encodeLightKey
    rw [lor_mul_two_pow_eq_add m idx (by omega)]
    omega
  have hdec7 : ∀ m, m < 2 ^ 24 → (2 ^ 7 * m + idx) >>> 7 = m := by
    intro m hmlt
    rw [Nat.shiftRight_eq_div_pow]
    omega
  constructor
  · rw [henc mac24 hm]
    unfold decodeLightKey
    rw [hdec7 mac24 hm, if_pos rfl]
    rw [show (127 : ℕ) = 2 ^ 7 - 1 by norm_num, Nat.and_pow_two_sub_one_eq_mod]
    omega
  · intro hne
    rw [henc mac24' hm']
    unfold decodeLightKey
    rw [hdec7 mac24' hm']
    rw [if_neg hne]

/-- Witness for C5 at hardware ids 3 and 5 with device index 7. -/
theorem lightKey_codec_witness :
    decodeLightKey 3 (encodeLightKey 3 7) = 7 ∧
    decodeLightKey 3 (encodeLightKey 5 7) = 255 :=
  ⟨(lightKey_codec 3 5 7 (by norm_num) (by norm_num) (by norm_num)).1,
   (lightKey_codec 3 5 7 (by norm_num) (by norm_num) (by norm_num)).2 (by norm_num)⟩

/-- C10: evaluated at two records with identical names but different
addresses, `EspNow::Device::operator==` returns false and
`EspNow::Device::operator!=` also returns false — `!=` as written (with `&&`)
is not the negation of `==`. -/
theorem espNowDevice_ne_not_negation_of_eq :
    espNowDeviceEq ⟨List.replicate 24 65, [1, 2, 3, 4, 5, 6]⟩
        ⟨List.replicate 24 65, [6, 5, 4, 3, 2, 1]⟩ = false ∧
    espNowDeviceNe ⟨List.replicate 24 65, [1, 2, 3, 4, 5, 6]⟩
        ⟨List.replicate 24 65, [6, 5, 4, 3, 2, 1]⟩ = false := by
  constructor <;> rfl

theorem decreaseBrightness_isOn (core : ℕ → Bool → ℕ) (s : LightState) :
    (Light.decreaseBrightness core s).isOn = s.isOn := by
  unfold Light.decreaseBrightness
  split_ifs <;> rfl

theorem decreaseBrightness_value_ne_zero (core : ℕ → Bool → ℕ) (s : LightState)
    (h : s.isOn = true) : (Light.decreaseBrightness core s).value ≠ 0 := by
  unfold Light.decreaseBrightness
  split_ifs with hc
  · rw [h] at hc
    simp only [Bool.not_true, Bool.false_or, beq_iff_eq] at hc
    omega
  · have := clampNat_one_le (core s.value false % 256)
    unfold perceptualBrightnessStep
    simp only
    omega

theorem decreaseBrightness_iterate_isOn (core : ℕ → Bool → ℕ) (s : LightState) (n : ℕ) :
    ((Light.decreaseBrightness core)^[n] s).isOn = s.isOn := by
  induction n with
  | zero => rfl
  | succ n ih =>
    rw [Function.iterate_succ_apply', decreaseBrightness_isOn]
    exact ih

/-- C4: toggling a channel that is off with value 0 yields on with value 255,
`decreaseBrightness` is a no-op when the channel is off or at the minimum
brightness 1, and from any on channel repeated `decreaseBrightness` calls
never drive the value to 0 — for every possible behaviour `core` of the
floating-point gamma computation. -/
theorem light_toggle_and_decrease (core : ℕ → Bool → ℕ) (s : LightState) (n : ℕ) :
    Light.toggle ⟨false, 0⟩ = ⟨true, 255⟩ ∧
    (s.isOn = false ∨ s.value = 1 → Light.decreaseBrightness core s = s) ∧
    (s.isOn = true → 0 < n → ((Light.decreaseBrightness core)^[n] s).value ≠ 0) := by
  refine ⟨rfl, fun h => ?_, fun hOn hn => ?_⟩
  · unfold Light.decreaseBrightness
    rw [if_pos]
    rcases h with h | h
    · rw [h]
      rfl
    · rw [h]
      simp
  · obtain ⟨m, rfl⟩ : ∃ m, n = m + 1 := ⟨n - 1, by omega⟩
    rw [Function.iterate_succ_apply']
    apply decreaseBrightness_value_ne_zero
    rw [decreaseBrightness_iterate_isOn]
    exact hOn

/-- Witness for C4: two decrease steps (with a gamma core returning 0) from
an on channel at value 5 leave a non-zero value. -/
theorem light_toggle_and_decrease_witness :
    ((Light.decreaseBrightness (fun _ _ => 0))^[2] ⟨true, 5⟩).value ≠ 0 :=
  (light_toggle_and_decrease (fun _ _ => 0) ⟨true, 5⟩ 2).2.2 rfl (by decide)

/-- C9: a bonding-channel write to the output-color characteristic whose
payload is not exactly 8 bytes leaves the manager unchanged (all channel
states and the throttle bookkeeping); an 8-byte payload overwrites all four
channel states with the received bytes and records them in the throttle. -/
theorem outputColorOnWrite_spec (now : ℕ) (payload : List ℕ)
    (m : OutputManagerState) (o0 v0 o1 v1 o2 v2 o3 v3 : ℕ) :
    (payload.length ≠ 8 → outputColorOnWrite now payload m = m) ∧
    outputColorOnWrite now [o0, v0, o1, v1, o2, v2, o3, v3] m =
      { lights := ![⟨o0 != 0, v0⟩, ⟨o1 != 0, v1⟩, ⟨o2 != 0, v2⟩, ⟨o3 != 0, v3⟩],
        colorNotificationThrottle :=
          m.colorNotificationThrottle.setLastSent now
            ⟨![⟨o0 != 0, v0⟩, ⟨o1 != 0, v1⟩, ⟨o2 != 0, v2⟩, ⟨o3 != 0, v3⟩]⟩ } := by
  constructor
  · intro h
    unfold outputColorOnWrite
    rw [if_pos h]
  · rfl

/-- Witness for C9: a 3-byte payload leaves the sample manager untouched. -/
theorem outputColorOnWrite_spec_witness :
    outputColorOnWrite 0 [1, 2, 3] sampleManager = sampleManager :=
  (outputColorOnWrite_spec 0 [1, 2, 3] sampleManager 0 0 0 0 0 0 0 0).1 (by decide)

/-- C7, counterexample: the empty payload `{}` neither turns the device on
nor carries a `bri` field, yet on a device that is already on with stored
brightness 100 the decode path overwrites the brightness with 254. -/
theorem dimmable_update_empty_payload_overwrites :
    dimmableHandleStateUpdate ⟨none, none⟩ ⟨true, 100⟩ = ⟨true, 254⟩ := rfl

/-- C7, amended: only the fields present in the payload are applied, except
that when the device is on after the `on` field is applied (turned on by the
payload or already on) and no `bri` field is present, the brightness is set
to the maximum 254; when the device is off after the `on` field is applied
and no `bri` field is present, the brightness is unchanged. -/
theorem dimmable_handleStateUpdate_fields (p : AlexaStatePayload) (s : DimmableDeviceState) :
    (∀ v, p.isOn = some v → (dimmableHandleStateUpdate p s).isOn = v) ∧
    (p.isOn = none → (dimmableHandleStateUpdate p s).isOn = s.isOn) ∧
    (∀ b, p.bri = some b → (dimmableHandleStateUpdate p s).brightness = b % 256) ∧
    (p.bri = none → (deviceHandleStateUpdate p s).isOn = true →
      (dimmableHandleStateUpdate p s).brightness = 254) ∧
    (p.bri = none → (deviceHandleStateUpdate p s).isOn = false →
      (dimmableHandleStateUpdate p s).brightness = s.brightness) := by
  obtain ⟨po, pb⟩ := p
  cases po <;> cases pb <;>
    simp only [dimmableHandleStateUpdate, deviceHandleStateUpdate] <;>
    constructor <;>
    try constructor
  all_goals
    simp_all
  all_goals
    split_ifs <;> simp_all

/-- Witness for C7 (amended) at a payload that turns the device on with no
explicit brightness. -/
theorem dimmable_handleStateUpdate_fields_witness :
    (dimmableHandleStateUpdate ⟨some true, none⟩ ⟨false, 17⟩).brightness = 254 :=
  (dimmable_handleStateUpdate_fields ⟨some true, none⟩ ⟨false, 17⟩).2.2.2.1 rfl rfl

/-- C6: in `RGB_DEVICE` (ColorPlusWhite) mode, a color device is created iff
the name for the red slot (index 0) is non-empty, and a dimmable device iff
the name for the white slot (index 3) is non-empty; with the names
`["Kitchen", "", "", "Lamp"]` exactly the color device "Kitchen" and the
dimmable device "Lamp" are created. -/
theorem alexa_rgb_mode_devices (names : Fin 4 → String) :
    ((∃ d ∈ setupRgbModeDevices names, d.kind = AlexaDeviceKind.color) ↔ names 0 ≠ "") ∧
    (∀ d ∈ setupRgbModeDevices names, d.kind = AlexaDeviceKind.color → d.name = names 0) ∧
    ((∃ d ∈ setupRgbModeDevices names, d.kind = AlexaDeviceKind.dimmable) ↔ names 3 ≠ "") ∧
    (∀ d ∈ setupRgbModeDevices names, d.kind = AlexaDeviceKind.dimmable → d.name = names 3) ∧
    setupRgbModeDevices !["Kitchen", "", "", "Lamp"] =
      [⟨AlexaDeviceKind.color, "Kitchen"⟩, ⟨AlexaDeviceKind.dimmable, "Lamp"⟩] := by
  unfold setupRgbModeDevices setupRgbDevice setupStandaloneDevice createSingleChannelDevice
  refine ⟨?_, ?_, ?_, ?_, ?_⟩
  · by_cases h0 : names 0 = "" <;> by_cases h3 : names 3 = "" <;> simp [h0, h3]
  · by_cases h0 : names 0 = "" <;> by_cases h3 : names 3 = "" <;> simp [h0, h3]
  · by_cases h0 : names 0 = "" <;> by_cases h3 : names 3 = "" <;> simp [h0, h3]
  · by_cases h0 : names 0 = "" <;> by_cases h3 : names 3 = "" <;> simp [h0, h3]
  · decide

/-- C8: `kelvinToRgb` clamps its input into `[2000, 6500]`; the `<= 6600`
branch test therefore always selects the warm branch (so the input 6600 sits
on the branch boundary but evaluates in the first branch), and any two inputs
at or above 6500 produce identical outputs — in particular the outputs just
below and just above the 6600 seam are equal, for every behaviour of the
float `log`/`pow` routines. -/
theorem kelvinToRgb_clamp_and_seam (logQ : ℚ → ℚ) (powQ : ℚ → ℚ → ℚ) (k k1 k2 : ℚ) :
    (2000 ≤ clampQ k KELVIN_MIN KELVIN_MAX ∧ clampQ k KELVIN_MIN KELVIN_MAX ≤ 6500) ∧
    kelvinToRgb logQ powQ k =
      ((255 : ℚ),
       clampQ (CT_GREEN_A * logQ (clampQ k KELVIN_MIN KELVIN_MAX / 100) + CT_GREEN_B) 0 255,
       clampQ (CT_BLUE_A * logQ ((clampQ k KELVIN_MIN KELVIN_MAX - 1000) / 100) + CT_BLUE_B)
         0 255) ∧
    (6500 ≤ k1 → 6500 ≤ k2 → kelvinToRgb logQ powQ k1 = kelvinToRgb logQ powQ k2) := by
  have hmem : ∀ x : ℚ, 2000 ≤ clampQ x KELVIN_MIN KELVIN_MAX ∧
      clampQ x KELVIN_MIN KELVIN_MAX ≤ 6500 := by
    intro x
    unfold KELVIN_MIN KELVIN_MAX
    exact clampQ_mem (by norm_num)
  have hwarm : ∀ x : ℚ, kelvinToRgb logQ powQ x =
      ((255 : ℚ),
       clampQ (CT_GREEN_A * logQ (clampQ x KELVIN_MIN KELVIN_MAX / 100) + CT_GREEN_B) 0 255,
       clampQ (CT_BLUE_A * logQ ((clampQ x KELVIN_MIN KELVIN_MAX - 1000) / 100) + CT_BLUE_B)
         0 255) := by
    intro x
    obtain ⟨hlo, hhi⟩ := hmem x
    unfold kelvinToRgb
    rw [if_pos (by linarith), if_neg (by linarith)]
    norm_num [RGB_MIN_VAL, RGB_MAX_VAL]
  refine ⟨hmem k, hwarm k, fun h1 h2 => ?_⟩
  have hc : clampQ k1 KELVIN_MIN KELVIN_MAX = clampQ k2 KELVIN_MIN KELVIN_MAX := by
    unfold KELVIN_MIN KELVIN_MAX
    rw [clampQ_of_ge h1, clampQ_of_ge h2]
  rw [hwarm k1, hwarm k2, hc]

/-- Witness for C8: the outputs just below and just above the 6600 seam agree
(shown with zero `log`/`pow` oracles). -/
theorem kelvinToRgb_clamp_and_seam_witness :
    kelvinToRgb (fun _ => 0) (fun _ _ => 0) 6599 =
      kelvinToRgb (fun _ => 0) (fun _ _ => 0) 6601 :=
  (kelvinToRgb_clamp_and_seam (fun _ => 0) (fun _ _ => 0) 0 6599 6601).2.2
    (by norm_num) (by norm_num)

theorem hsvMaxQ_choice (fr fg fb : ℚ) :
    hsvMaxQ fr fg fb = fr ∨ hsvMaxQ fr fg fb = fg ∨ hsvMaxQ fr fg fb = fb := by
  unfold hsvMaxQ
  rcases max_choice fr (max fg fb) with h | h
  · exact Or.inl h
  · rcases max_choice fg fb with h' | h'
    · exact Or.inr (Or.inl (h.trans h'))
    · exact Or.inr (Or.inr (h.trans h'))

theorem le_hsvMaxQ (fr fg fb : ℚ) :
    fr ≤ hsvMaxQ fr fg fb ∧ fg ≤ hsvMaxQ fr fg fb ∧ fb ≤ hsvMaxQ fr fg fb := by
  unfold hsvMaxQ
  exact ⟨le_max_left _ _,
    le_trans (le_max_left _ _) (le_max_right _ _),
    le_trans (le_max_right _ _) (le_max_right _ _)⟩

theorem hsvMinQ_le (fr fg fb : ℚ) :
    hsvMinQ fr fg fb ≤ fr ∧ hsvMinQ fr fg fb ≤ fg ∧ hsvMinQ fr fg fb ≤ fb := by
  unfold hsvMinQ
  exact ⟨min_le_left _ _,
    le_trans (min_le_right _ _) (min_le_left _ _),
    le_trans (min_le_right _ _) (min_le_right _ _)⟩

theorem hueRawQ_mem (fr fg fb : ℚ) : -60 ≤ hueRawQ fr fg fb ∧ hueRawQ fr fg fb ≤ 300 := by
  obtain ⟨hxr, hxg, hxb⟩ := le_hsvMaxQ fr fg fb
  obtain ⟨hnr, hng, hnb⟩ := hsvMinQ_le fr fg fb
  unfold hueRawQ
  split_ifs with hd h1 h2
  · have hq1 : (fg - fb) / hsvDeltaQ fr fg fb ≤ 1 := by
      rw [div_le_one hd]
      unfold hsvDeltaQ
      linarith
    have hq2 : (-1 : ℚ) ≤ (fg - fb) / hsvDeltaQ fr fg fb := by
      rw [le_div_iff₀ hd]
      unfold hsvDeltaQ
      linarith
    rw [fmodQ_six_eq_self hq2 hq1]
    constructor <;> linarith
  · have hq1 : (fb - fr) / hsvDeltaQ fr fg fb ≤ 1 := by
      rw [div_le_one hd]
      unfold hsvDeltaQ
      linarith
    have hq2 : (-1 : ℚ) ≤ (fb - fr) / hsvDeltaQ fr fg fb := by
      rw [le_div_iff₀ hd]
      unfold hsvDeltaQ
      linarith
    constructor <;> linarith
  · have hq1 : (fr - fg) / hsvDeltaQ fr fg fb ≤ 1 := by
      rw [div_le_one hd]
      unfold hsvDeltaQ
      linarith
    have hq2 : (-1 : ℚ) ≤ (fr - fg) / hsvDeltaQ fr fg fb := by
      rw [le_div_iff₀ hd]
      unfold hsvDeltaQ
      linarith
    constructor <;> linarith
  · norm_num

theorem hueFloatQ_mem (fr fg fb : ℚ) : 0 ≤ hueFloatQ fr fg fb ∧ hueFloatQ fr fg fb ≤ 360 := by
  obtain ⟨h1, h2⟩ := hueRawQ_mem fr fg fb
  unfold hueFloatQ
  split_ifs with h <;> constructor <;> linarith

theorem satFloatQ_mem (fr fg fb : ℚ) (h0r : 0 ≤ fr) (h0g : 0 ≤ fg) (h0b : 0 ≤ fb) :
    0 ≤ satFloatQ fr fg fb ∧ satFloatQ fr fg fb ≤ 1 := by
  obtain ⟨hxr, _, _⟩ := le_hsvMaxQ fr fg fb
  obtain ⟨hnr, hng, hnb⟩ := hsvMinQ_le fr fg fb
  unfold satFloatQ
  split_ifs with h
  · norm_num
  · have hmx0 : 0 ≤ hsvMaxQ fr fg fb := le_trans h0r hxr
    have hmxpos : 0 < hsvMaxQ fr fg fb := lt_of_le_of_ne hmx0 (Ne.symm h)
    have hmn0 : 0 ≤ hsvMinQ fr fg fb := by
      unfold hsvMinQ
      exact le_min h0r (le_min h0g h0b)
    constructor
    · apply div_nonneg _ hmx0
      unfold hsvDeltaQ
      linarith
    · rw [div_le_one hmxpos]
      unfold hsvDeltaQ
      linarith

theorem hueFloatQ_diag (x : ℚ) : hueFloatQ x x x = 0 := by
  unfold hueFloatQ hueRawQ hsvDeltaQ hsvMaxQ hsvMinQ
  norm_num

/-- C2: for all 8-bit inputs, `rgbToHsv` returns a hue at most 65535, a
saturation at most 254, and a value in `[1, 254]` (never 0); when
`r = g = b` (so `delta = 0`) the hue is 0. -/
theorem rgbToHsv_ranges (r g b : ℕ) (hr : r ≤ 255) (hg : g ≤ 255) (hb : b ≤ 255) :
    (rgbToHsv r g b).1 ≤ 65535 ∧
    (rgbToHsv r g b).2.1 ≤ 254 ∧
    1 ≤ (rgbToHsv r g b).2.2 ∧ (rgbToHsv r g b).2.2 ≤ 254 ∧
    (r = g → g = b → (rgbToHsv r g b).1 = 0) := by
  unfold rgbToHsv
  have hfr0 : (0 : ℚ) ≤ (r : ℚ) / 255 := by positivity
  have hfg0 : (0 : ℚ) ≤ (g : ℚ) / 255 := by positivity
  have hfb0 : (0 : ℚ) ≤ (b : ℚ) / 255 := by positivity
  have hfr1 : (r : ℚ) / 255 ≤ 1 := by
    rw [div_le_one (by norm_num)]
    exact_mod_cast hr
  have hfg1 : (g : ℚ) / 255 ≤ 1 := by
    rw [div_le_one (by norm_num)]
    exact_mod_cast hg
  have hfb1 : (b : ℚ) / 255 ≤ 1 := by
    rw [div_le_one (by norm_num)]
    exact_mod_cast hb
  obtain ⟨hh0, hh1⟩ := hueFloatQ_mem ((r : ℚ) / 255) ((g : ℚ) / 255) ((b : ℚ) / 255)
  obtain ⟨hs0, hs1⟩ := satFloatQ_mem ((r : ℚ) / 255) ((g : ℚ) / 255) ((b : ℚ) / 255)
    hfr0 hfg0 hfb0
  have hv1 : hsvMaxQ ((r : ℚ) / 255) ((g : ℚ) / 255) ((b : ℚ) / 255) ≤ 1 := by
    unfold hsvMaxQ
    exact max_le hfr1 (max_le hfg1 hfb1)
  refine ⟨?_, ?_, ?_, ?_, ?_⟩
  · apply truncQ_le_of_le
    push_cast
    linarith
  · apply truncQ_le_of_le
    push_cast
    linarith
  · exact le_max_right _ 1
  · apply max_le _ (by norm_num)
    apply truncQ_le_of_le
    push_cast
    linarith
  · intro hrg hgb
    subst hrg hgb
    rw [hueFloatQ_diag]
    norm_num [truncQ_zero]

/-- Witness for C2 at the input (10, 20, 30). -/
theorem rgbToHsv_ranges_witness :
    1 ≤ (rgbToHsv 10 20 30).2.2 ∧ (rgbToHsv 10 20 30).2.2 ≤ 254 :=
  ⟨(rgbToHsv_ranges 10 20 30 (by decide) (by decide) (by decide)).2.2.1,
   (rgbToHsv_ranges 10 20 30 (by decide) (by decide) (by decide)).2.2.2.1⟩

/-- C3: for every valid (hue, saturation, value), `hsvToRgbw` equals
`(r - w, g - w, b - w, w)` for `(r, g, b) = hsvToRgb(hue, sat, val)` and
`w = min(r, g, b)`; hence at least one of the first three channels is 0, and
adding `w` back to each channel reconstructs `(r, g, b)` exactly. -/
theorem hsvToRgbw_white_extraction (hue sat val : ℕ)
    (hh : hue ≤ 65535) (hs : sat ≤ 254) (hv : val ≤ 254) :
    ((hsvToRgbw hue sat val).1
        = (hsvToRgb hue sat val).1 - minChannel (hsvToRgb hue sat val) ∧
      (hsvToRgbw hue sat val).2.1
        = (hsvToRgb hue sat val).2.1 - minChannel (hsvToRgb hue sat val) ∧
      (hsvToRgbw hue sat val).2.2.1
        = (hsvToRgb hue sat val).2.2 - minChannel (hsvToRgb hue sat val) ∧
      (hsvToRgbw hue sat val).2.2.2 = minChannel (hsvToRgb hue sat val)) ∧
    ((hsvToRgbw hue sat val).1 = 0 ∨ (hsvToRgbw hue sat val).2.1 = 0 ∨
      (hsvToRgbw hue sat val).2.2.1 = 0) ∧
    ((hsvToRgbw hue sat val).1 + (hsvToRgbw hue sat val).2.2.2
        = (hsvToRgb hue sat val).1 ∧
      (hsvToRgbw hue sat val).2.1 + (hsvToRgbw hue sat val).2.2.2
        = (hsvToRgb hue sat val).2.1 ∧
      (hsvToRgbw hue sat val).2.2.1 + (hsvToRgbw hue sat val).2.2.2
        = (hsvToRgb hue sat val).2.2) := by
  rcases hrgb : hsvToRgb hue sat val with ⟨r, ⟨g, b⟩⟩
  simp only [hsvToRgbw, minChannel, hrgb]
  refine ⟨⟨trivial, trivial, trivial, trivial⟩, ?_, ?_, ?_, ?_⟩ <;> omega

/-- Witness for C3 at (hue, sat, val) = (0, 254, 254). -/
theorem hsvToRgbw_white_extraction_witness :
    (hsvToRgbw 0 254 254).1 = 0 ∨ (hsvToRgbw 0 254 254).2.1 = 0 ∨
      (hsvToRgbw 0 254 254).2.2.1 = 0 :=
  (hsvToRgbw_white_extraction 0 254 254 (by decide) (by decide) (by decide)).2.1
